import Mathlib

/-!
Verification of the PAWSture alerting and recommendation core.

The definitions below are a shallow embedding of the Python sources
`unified_bot.py`, `cloud_db.py`, `recommendation_system.py` and
`data_loader.py`.  Pure fragments become Lean functions; the stateful
fragments (cooldown tables, gamification ledger, training state) become
explicit state-passing functions.  Time is modelled by rationals
(seconds), floats by rationals.
-/

namespace PAWSture

/-! ### Configuration constants (unified_bot.py, lines 30-45) -/

def POSTURE_WINDOW_SECONDS : Nat := 10
def POSTURE_COOLDOWN_SECONDS : ℚ := 30
def POSTURE_CRITICAL_THRESHOLD : Nat := 4
def POSTURE_HIGH_THRESHOLD : Nat := 5
def POSTURE_MEDIUM_THRESHOLD : Nat := 6

/-! ### Acute posture detector (unified_bot.py, `check_posture_alerts_all_users`,
part 1, lines 240-262).

For one user, `measurements` is the list of posture rows fetched for the
10-second window (query filter `overall_zone=gte.2`, ordered by timestamp
descending), projected to their `overall_zone` field.  The code reads
`zone` from the *latest* row (`measurements[0]`, default 0) and
`total_measurements = len(measurements)`, then walks an if/elif chain. -/

inductive PostureLevel
  | critical
  | high
  | medium
  | noAlert
deriving DecidableEq, Repr

open PostureLevel

def classifyPostureWindow (measurements : List Int) : PostureLevel :=
  let zone := measurements.headD 0
  let n := measurements.length
  if zone ≥ 4 ∧ n ≥ POSTURE_CRITICAL_THRESHOLD then .critical
  else if zone ≥ 3 ∧ n ≥ POSTURE_HIGH_THRESHOLD then .high
  else if zone ≥ 2 ∧ n ≥ POSTURE_MEDIUM_THRESHOLD then .medium
  else .noAlert

/-- Number of rows of the window whose zone is at least `z`. -/
def countZoneGe (measurements : List Int) (z : Int) : Nat :=
  (measurements.filter (fun m => z ≤ m)).length

/-! ### Posture risk classifier (unified_bot.py,
`determine_posture_risk_type`, lines 155-180).

Python iterates over the alert labels in list order; for each label it
checks the four categories in order (critical / zone 4, high risk /
zone 3, flexion / neck, shoulders) and returns at the first label that
matches any of them.  The `"zone 4"` and `"zone 3"` probes run on the
original label, the word probes on its lower-cased form.  An empty list,
or one with no matching label, yields `"general_posture"`. -/

/-- Test `charsStartWith pat l`: `pat` starts `l`. -/
def charsStartWith : List Char → List Char → Bool
  | [], _ => true
  | _ :: _, [] => false
  | c :: cs, d :: ds => c == d && charsStartWith cs ds

/-- Test `charsHave pat l`: `pat` occurs contiguously inside `l`
(Python `pat in l`). -/
def charsHave (pat : List Char) : List Char → Bool
  | [] => charsStartWith pat []
  | d :: ds => charsStartWith pat (d :: ds) || charsHave pat ds

/-- Python substring test `pat in s`. -/
def strContains (s pat : String) : Bool :=
  charsHave pat.data s.data

/-- Python `str.lower()` (the labels involved are ASCII). -/
def pyLower (s : String) : String :=
  ⟨s.data.map Char.toLower⟩

def determine_posture_risk_type : List String → String
  | [] => "general_posture"
  | alert :: rest =>
    let alertLower := pyLower alert
    if strContains alertLower "critical" || strContains alert "zone 4" then
      "critical_posture"
    else if strContains alertLower "high risk" || strContains alert "zone 3" then
      "general_posture"
    else if strContains alertLower "flexion" || strContains alertLower "neck" then
      "neck_flexion"
    else if strContains alertLower "shoulders" then
      "shoulder_alignment"
    else
      determine_posture_risk_type rest

/-- The per-label category, when the label matches one (spec view of the
priority map restricted to a single label). -/
def alertTag (alert : String) : Option String :=
  let alertLower := pyLower alert
  if strContains alertLower "critical" || strContains alert "zone 4" then
    some "critical_posture"
  else if strContains alertLower "high risk" || strContains alert "zone 3" then
    some "general_posture"
  else if strContains alertLower "flexion" || strContains alertLower "neck" then
    some "neck_flexion"
  else if strContains alertLower "shoulders" then
    some "shoulder_alignment"
  else
    none

/-! ### Per-user / per-subscriber cooldown tables (unified_bot.py,
lines 64-71 and 652-771).

`POSTURE_COOLDOWNS` is a nested dict `user_id → chat_id → last_alert_time`
with `None` default; we model it as a total function into `Option ℚ`
(seconds since an arbitrary epoch stand in for `datetime`). -/

def CooldownTable : Type := Int → Int → Option ℚ

/-- unified_bot.py, `is_posture_cooldown_active`, lines 652-679: the key is
active iff a last send time exists and `now - last_sent <
POSTURE_COOLDOWN_SECONDS`. -/
def is_posture_cooldown_active (table : CooldownTable) (chat_id user_id : Int)
    (now : ℚ) : Bool :=
  match table user_id chat_id with
  | none => false
  | some last_sent => decide (now - last_sent < POSTURE_COOLDOWN_SECONDS)

/-- unified_bot.py, `update_posture_cooldown`, lines 740-749: store the
current time under the key. -/
def update_posture_cooldown (table : CooldownTable) (chat_id user_id : Int)
    (now : ℚ) : CooldownTable :=
  fun u c => if u = user_id ∧ c = chat_id then some now else table u c

/-! ### Posture alert dispatcher (unified_bot.py, `send_posture_alerts`,
lines 1249-1338).

One tick walks the per-user alert dictionaries produced by
`check_posture_alerts_all_users`.  For a user with level-3+ alerts the
code generates a recommendation and, for every subscribed chat whose
level-3+ cooldown is clear, tries to send the recommendation message
(with the inline keyboard); `update_posture_cooldown` runs only after a
send that did not raise.  Only when the user has **no** level-3+ alerts
(the `elif` on line 1311) does the code filter the level-2 labels and
send the button-less informational message under the separate level-2
cooldown table.

Side effects outside the embedding (Telegram, Supabase) are abstracted
by two oracles: `sendOk chat user` tells whether `bot.send_message`
raised, and `recOk user` tells whether `get_posture_recommendation`
returned a message (when it does, `generate_recommendation` has inserted
a recommendation row). -/

structure PostureMsg where
  chat : Int
  user : Int
  hasKeyboard : Bool
  level2Info : Bool
deriving DecidableEq, Repr

/-- The level-3+ send loop over `recipients` (lines 1291-1308). -/
def sendLoopL3 (now : ℚ) (user : Int) (sendOk : Int → Int → Bool) :
    List Int → CooldownTable → List PostureMsg × CooldownTable
  | [], tab => ([], tab)
  | chat :: rest, tab =>
    if is_posture_cooldown_active tab chat user now then
      sendLoopL3 now user sendOk rest tab
    else if sendOk chat user then
      let tab2 := update_posture_cooldown tab chat user now
      let r := sendLoopL3 now user sendOk rest tab2
      (⟨chat, user, true, false⟩ :: r.1, r.2)
    else
      sendLoopL3 now user sendOk rest tab

/-- The level-2 send loop over `recipients` (lines 1322-1338); the message
carries no reply keyboard. -/
def sendLoopL2 (now : ℚ) (user : Int) (sendOk : Int → Int → Bool) :
    List Int → CooldownTable → List PostureMsg × CooldownTable
  | [], tab => ([], tab)
  | chat :: rest, tab =>
    if is_posture_cooldown_active tab chat user now then
      sendLoopL2 now user sendOk rest tab
    else if sendOk chat user then
      let tab2 := update_posture_cooldown tab chat user now
      let r := sendLoopL2 now user sendOk rest tab2
      (⟨chat, user, false, true⟩ :: r.1, r.2)
    else
      sendLoopL2 now user sendOk rest tab

/-- Filter used both on line 1313 and in `create_level2_alert_message`
(line 525): keep the labels containing `"Medium"` or `"Level 2"`. -/
def level2Filter (alerts : List String) : List String :=
  alerts.filter (fun a => strContains a "Medium" || strContains a "Level 2")

structure UserStepResult where
  msgs : List PostureMsg
  recGenerated : Bool
  tabL3 : CooldownTable
  tabL2 : CooldownTable

/-- Body of the per-user loop of `send_posture_alerts` (lines 1276-1338)
for one `(user, posture_alerts, posture_recommendation_alerts)` entry. -/
def processPostureUser (now : ℚ) (recipients : List Int)
    (sendOk : Int → Int → Bool) (recOk : Bool) (user : Int)
    (postureAlerts recAlerts : List String)
    (tabL3 tabL2 : CooldownTable) : UserStepResult :=
  if recAlerts ≠ [] then
    -- level 3+: generate recommendation; send only on success
    if recOk then
      let r := sendLoopL3 now user sendOk recipients tabL3
      ⟨r.1, true, r.2, tabL2⟩
    else
      ⟨[], false, tabL3, tabL2⟩
  else if postureAlerts ≠ [] then
    if level2Filter postureAlerts ≠ [] then
      -- create_level2_alert_message returns a message iff the filter is
      -- non-empty, which it is here
      let r := sendLoopL2 now user sendOk recipients tabL2
      ⟨r.1, false, tabL3, r.2⟩
    else
      ⟨[], false, tabL3, tabL2⟩
  else
    ⟨[], false, tabL3, tabL2⟩

structure PostureTickResult where
  msgs : List PostureMsg
  recUsers : List Int
  tabL3 : CooldownTable
  tabL2 : CooldownTable

/-- One full tick of `send_posture_alerts`: iterate over the user alert
dictionary (each user appears once).  `recUsers` collects the users for
which a recommendation was generated (and hence inserted). -/
def send_posture_alerts (now : ℚ) (recipients : List Int)
    (sendOk : Int → Int → Bool) (recOk : Int → Bool) :
    List (Int × List String × List String) → CooldownTable → CooldownTable →
    PostureTickResult
  | [], tabL3, tabL2 => ⟨[], [], tabL3, tabL2⟩
  | (user, postureAlerts, recAlerts) :: rest, tabL3, tabL2 =>
    let r := processPostureUser now recipients sendOk (recOk user) user
      postureAlerts recAlerts tabL3 tabL2
    let rr := send_posture_alerts now recipients sendOk recOk rest r.tabL3 r.tabL2
    ⟨r.msgs ++ rr.msgs, (if r.recGenerated then [user] else []) ++ rr.recUsers,
      rr.tabL3, rr.tabL2⟩

/-! ### Gamification ledger (cloud_db.py, `add_points`, lines 266-327).

The `gamification` table keyed by `user_id` is modelled as a total
function into `Option ℚ` (the points column).  `add_points` reads the
row; if present it writes `clamp(old + delta, 0, 10)`; otherwise it
first inserts a fresh row with `points = 10.0` and only then, when the
delta is non-zero, writes `clamp(10 + delta, 0, 10)`. -/

def Gamification : Type := Int → Option ℚ

structure AddPointsResult where
  table : Gamification
  returned : Option ℚ

def add_points (g : Gamification) (user_id : Int) (delta : ℚ) :
    AddPointsResult :=
  match g user_id with
  | some current_points =>
    let new_points := max 0 (min 10 (current_points + delta))
    ⟨fun u => if u = user_id then some new_points else g u, some new_points⟩
  | none =>
    let starting : ℚ := 10
    let g1 : Gamification := fun u => if u = user_id then some starting else g u
    if delta ≠ 0 then
      let new_points := max 0 (min 10 (starting + delta))
      ⟨fun u => if u = user_id then some new_points else g1 u, some new_points⟩
    else
      ⟨g1, some starting⟩

/-! ### Response recording (cloud_db.py, `insert_recommendation_response`,
lines 112-150).

The function always inserts a row into `recommendation_responses`, then
maps the response through `_map = accept → 0.2, postpone → 0.0,
reject → −0.2` and calls `add_points` only when the delta is
non-zero. -/

structure ResponseRow where
  recommendation_id : String
  user_id : Int
  response : String
deriving DecidableEq, Repr

structure DBState where
  responses : List ResponseRow
  gamification : Gamification

def response_delta (response : String) : ℚ :=
  if response = "accept" then 2/10
  else if response = "postpone" then 0
  else if response = "reject" then -(2/10)
  else 0

def insert_recommendation_response (st : DBState)
    (recommendation_id : String) (user_id : Int) (response : String) :
    DBState :=
  let st1 : DBState :=
    ⟨st.responses ++ [⟨recommendation_id, user_id, response⟩], st.gamification⟩
  let delta := response_delta response
  if delta ≠ 0 then
    ⟨st1.responses, (add_points st1.gamification user_id delta).table⟩
  else
    st1

/-! ### Feedback corpus and interaction tensor (data_loader.py).

`fetch_data` joins `recommendation_responses` with `recommendations`
and yields a data frame whose relevant columns are `user_id` (string),
`context` (derived from the hour), `name` (activity name) and `reward`
(mapped from the response; rows without a reward are dropped, so every
surviving reward is `−1.0`, `0.1` or `1.0`).  `build_tensor`
(lines 131-179) builds `user_map` from the unique users in first-appearance
order, zero-initialises a `[n_users, 3, n_activities]` tensor, and then
writes `reward` into `T[u_idx, c_idx, a_idx]` for each row in data-frame
order, skipping rows whose activity name is not in `activity_map`. -/

structure FeedbackRow where
  user_id : String
  context : String
  name : String
  reward : ℚ
deriving DecidableEq, Repr

/-- pandas `unique`: the distinct values in order of first appearance. -/
def uniqueUsers (df : List FeedbackRow) : List String :=
  df.foldl (fun acc r => if r.user_id ∈ acc then acc else acc ++ [r.user_id]) []

/-- Position of an element in a key list (the index maps `user_map` /
`activity_map` assign by enumeration). -/
def indexInList (x : String) : List String → Option Nat
  | [] => none
  | y :: rest => if y = x then some 0 else (indexInList x rest).map (· + 1)

/-- Map `context_map = morning → 0, afternoon → 1, evening → 2`, defaulting
to 1 (`self.context_map.get(row.context, 1)`). -/
def contextIdx (c : String) : Nat :=
  if c = "morning" then 0
  else if c = "afternoon" then 1
  else if c = "evening" then 2
  else 1

def Tensor3 : Type := Nat → Nat → Nat → ℚ

/-- One iteration of the fill loop of `build_tensor` (lines 157-170). -/
def tensorStep (userList acts : List String) (t : Tensor3)
    (row : FeedbackRow) : Tensor3 :=
  match indexInList row.user_id userList with
  | none => t
  | some u_idx =>
    match indexInList row.name acts with
    | none => t
    | some a_idx =>
      let c_idx := contextIdx row.context
      fun u c a =>
        if u = u_idx ∧ c = c_idx ∧ a = a_idx then row.reward else t u c a

def tensorFold (userList acts : List String) (df : List FeedbackRow)
    (t0 : Tensor3) : Tensor3 :=
  df.foldl (tensorStep userList acts) t0

/-- Function `DataLoader.build_tensor`: user map from the frame itself,
zero-initialised tensor, then the fill loop. -/
def build_tensor (acts : List String) (df : List FeedbackRow) : Tensor3 :=
  tensorFold (uniqueUsers df) acts df (fun _ _ _ => 0)

/-- The row of `df` maps to cell `(u, c, a)` of the tensor. -/
def rowMapsTo (userList acts : List String) (u c a : Nat)
    (row : FeedbackRow) : Bool :=
  indexInList row.user_id userList == some u
    && indexInList row.name acts == some a
    && contextIdx row.context == c

/-! ### Training state (recommendation_system.py, `train_brain`,
lines 128-141).

State is the pair `(self.model, self.is_model_ready)`; the model object
itself is opaque for the claims we check, so its type is a parameter.
When the fetched frame is `None` or has fewer than 5 rows the method
prints, sets `is_model_ready = False` and returns without touching
`self.model`.  Otherwise training runs; its outcome (the freshly built
model, and whether an exception ends the run with `is_model_ready =
False`) is abstracted by the `newModel`/`ok` arguments. -/

structure BrainState (μ : Type) where
  model : Option μ
  is_model_ready : Bool

def train_brain {μ : Type} (s : BrainState μ) (df : Option (List FeedbackRow))
    (newModel : μ) (ok : Bool) : BrainState μ :=
  match df with
  | none => ⟨s.model, false⟩
  | some rows =>
    if rows.length < 5 then
      ⟨s.model, false⟩
    else
      ⟨some newModel, ok⟩

/-! ### Activity catalog and recommendation selection
(recommendation_system.py, `ACTIVITY_CATALOG`, lines 40-84, and
`generate_recommendation`, lines 228-312).

The emoji field of the Python dictionaries carries no behaviour relevant
to the claims and is omitted; every other field is transcribed. -/

structure Activity where
  name : String
  activityType : String
  duration : String
  description : String
  steps : List String
deriving DecidableEq, Repr

def ACTIVITY_CATALOG : String → Option (List Activity) := fun key =>
  if key = "stress_high" then some
    [⟨"4-7-8 Breathing", "breathing", "2 min", "Relaxation technique",
       ["Inhale 4s", "Hold 7s", "Exhale 8s"]⟩,
     ⟨"Diaphragmatic Breathing", "breathing", "3 min", "Deep calm",
       ["Hand on abdomen", "Deep inhale", "Feel expansion"]⟩,
     ⟨"Guided Visualization", "breathing", "3 min", "Mental escape",
       ["Close eyes", "Imagine safe place", "Breathe slowly"]⟩]
  else if key = "negative_emotion" then some
    [⟨"Mindful Coffee Break", "active_break", "5 min", "Change of scenery",
       ["Go to kitchen", "Enjoy aroma", "Breathe"]⟩,
     ⟨"Brisk Walk", "active_break", "5 min", "Activate endorphins",
       ["Stand up", "Walk briskly", "Look out window"]⟩,
     ⟨"Power Stretching", "active_break", "2 min", "Confidence posture",
       ["Arms in V above", "Deep breath", "Force smile"]⟩]
  else if key = "neck_flexion" then some
    [⟨"Cervical Retraction", "posture_correction", "2 min", "Corrects forward neck",
       ["Chin back (double chin)", "Align ears with shoulders", "Hold 5s"]⟩,
     ⟨"Lateral Stretch", "posture_correction", "2 min", "Trapezius relief",
       ["Ear to shoulder", "Hand gently assists", "30s each side"]⟩]
  else if key = "shoulder_alignment" then some
    [⟨"Shoulder Rotation", "posture_correction", "1 min", "Release tension",
       ["Shoulders up", "Back and down", "Repeat 10 times"]⟩,
     ⟨"Chest Opening", "posture_correction", "2 min", "Counteract hunching",
       ["Hands behind back", "Interlace fingers", "Stretch arms"]⟩]
  else if key = "critical_posture" then some
    [⟨"FULL RESET", "urgent_break", "5 min", "Urgent Intervention",
       ["Stand up NOW", "Walk", "Drink water", "Readjust chair"]⟩,
     ⟨"Spinal Stretch", "urgent_break", "3 min", "Decompression",
       ["Standing", "Touch toes", "Roll up vertebra by vertebra"]⟩]
  else if key = "general_posture" then some
    [⟨"Ergonomic Check", "posture_correction", "1 min", "Quick check",
       ["Feet flat", "Knees 90 deg", "Screen at eye level"]⟩,
     ⟨"Torso Rotation", "active_break", "2 min", "Lumbar mobility",
       ["Rotate torso right", "Grab chair back", "Switch sides"]⟩]
  else none

/-- Python `candidates = self.ACTIVITY_CATALOG.get(risk_type)` followed by
`if not candidates: candidates = self.ACTIVITY_CATALOG.get("general_posture")`
(an absent key and an empty list are both falsy). -/
def candidatesFor (risk_type : String) : List Activity :=
  match ACTIVITY_CATALOG risk_type with
  | some l => if l = [] then (ACTIVITY_CATALOG "general_posture").getD [] else l
  | none => (ACTIVITY_CATALOG "general_posture").getD []

/-- Python `user_str = str(user_id) if user_id else "1"`; both `None` and
the falsy integer `0` fall back to `"1"`. -/
def user_str (user_id : Option Int) : String :=
  match user_id with
  | none => "1"
  | some u => if u = 0 then "1" else toString u

/-- The AI ranking loop of `generate_recommendation` (lines 260-275):
walk the candidates, skip names outside `activity_map` (`aiScore` is
`none` there), track the strictly best expected-reward score starting
from `best_score = -1e9`. -/
def pickBestActivity (aiScore : String → Option ℚ)
    (candidates : List Activity) : Option Activity :=
  (candidates.foldl
    (fun (acc : Option Activity × ℚ) activity =>
      match aiScore activity.name with
      | some score => if score > acc.2 then (some activity, score) else acc
      | none => acc)
    (none, -(10 ^ 9 : ℚ))).1

/-- Python `random.choice`: pick the element at the uniformly drawn index `k`. -/
def random_choice (l : List Activity) (k : Nat) : Activity :=
  l.getD k ⟨"", "", "", "", []⟩

structure Recommendation where
  userStr : String
  recommendation_type : String
  name : String
  description : String
  duration : String
  steps : List String
  reason : String
  urgency : String
deriving DecidableEq, Repr

/-- Method `RecommendationSystem.generate_recommendation` (lines 228-312).

The instance state enters as `is_model_ready` and the key set of
`self.data_loader.user_map`; the torch inference is abstracted by
`aiScore` (the per-activity expected reward, `none` when the name is not
in `activity_map`), and the random draw of `random.choice` by the index
`k`.  The id suffix (timestamp and random digits) is omitted; the user
part of the id is kept as `userStr`. -/
def generate_recommendation (is_model_ready : Bool)
    (userMapKeys : List String) (aiScore : String → Option ℚ) (k : Nat)
    (user_id : Option Int) (risk_type : String) : Recommendation :=
  let candidates := candidatesFor risk_type
  let uStr := user_str user_id
  let aiSelected : Option Activity :=
    if is_model_ready ∧ uStr ∈ userMapKeys then
      pickBestActivity aiScore candidates
    else none
  let picked : Activity × String :=
    match aiSelected with
    | some a => (a, "AI-P3FitRec")
    | none => (random_choice candidates k, "COLD-START")
  { userStr := uStr
    recommendation_type := picked.1.activityType
    name := picked.1.name
    description := picked.1.description
    duration := picked.1.duration
    steps := picked.1.steps
    reason := "Suggested by " ++ picked.2 ++ " (Risk: " ++ risk_type ++ ")"
    urgency := if strContains risk_type "critical" then "high" else "medium" }

/-! ## Theorems -/

/-- Helper: when the head alert matches a category, the classifier
returns that category regardless of the rest of the list. -/
lemma determine_cons_of_tag (a : String) (rest : List String) (t : String)
    (h : alertTag a = some t) :
    determine_posture_risk_type (a :: rest) = t := by
  unfold alertTag at h
  unfold determine_posture_risk_type
  dsimp only at h ⊢
  split_ifs at h ⊢ <;> simp_all

/-- Helper: a head alert matching no category is skipped. -/
lemma determine_cons_of_none (a : String) (rest : List String)
    (h : alertTag a = none) :
    determine_posture_risk_type (a :: rest) =
      determine_posture_risk_type rest := by
  unfold alertTag at h
  dsimp only at h
  rw [determine_posture_risk_type]
  split_ifs at h ⊢
  simp_all

/-- C1 (counterexample): the claim ties `CRITICAL` to the number of rows
with `overall_zone ≥ 4`, but on the window `[4, 2, 2, 2]` (latest row
first, all rows ≥ 2 as fetched) the code emits `CRITICAL` although only
one row has zone ≥ 4 — the code looks at the zone of the *latest* row
and the *total* row count. -/
theorem check_posture_claim_false_on_4222 :
    classifyPostureWindow [4, 2, 2, 2] = .critical ∧
    countZoneGe [4, 2, 2, 2] 4 = 1 ∧
    ¬(classifyPostureWindow [4, 2, 2, 2] = .critical ↔
        POSTURE_CRITICAL_THRESHOLD ≤ countZoneGe [4, 2, 2, 2] 4) := by
  decide

/-- C1 (amended): the acute detector emits `CRITICAL` exactly when the
latest fetched row has zone ≥ 4 and the window holds at least 4 rows;
otherwise `HIGH` exactly when the latest zone is ≥ 3 and at least 5 rows;
otherwise `MEDIUM` exactly when the latest zone is ≥ 2 and at least 6
rows.  A window of exactly 5 zone-3 rows emits `HIGH`; one of 4 zone-3
rows emits nothing. -/
theorem classifyPostureWindow_characterisation (ms : List Int) :
    (classifyPostureWindow ms = .critical ↔
      4 ≤ ms.headD 0 ∧ POSTURE_CRITICAL_THRESHOLD ≤ ms.length) ∧
    (classifyPostureWindow ms = .high ↔
      ¬(4 ≤ ms.headD 0 ∧ POSTURE_CRITICAL_THRESHOLD ≤ ms.length) ∧
      (3 ≤ ms.headD 0 ∧ POSTURE_HIGH_THRESHOLD ≤ ms.length)) ∧
    (classifyPostureWindow ms = .medium ↔
      ¬(4 ≤ ms.headD 0 ∧ POSTURE_CRITICAL_THRESHOLD ≤ ms.length) ∧
      ¬(3 ≤ ms.headD 0 ∧ POSTURE_HIGH_THRESHOLD ≤ ms.length) ∧
      (2 ≤ ms.headD 0 ∧ POSTURE_MEDIUM_THRESHOLD ≤ ms.length)) ∧
    classifyPostureWindow [3, 3, 3, 3, 3] = .high ∧
    classifyPostureWindow [3, 3, 3, 3] = .noAlert := by
  refine ⟨?_, ?_, ?_, by decide, by decide⟩ <;>
    · unfold classifyPostureWindow
      dsimp only
      split_ifs <;> simp_all [ge_iff_le]

/-- C2 (counterexample): with a neck-flexion label ahead of a critical
label the classifier returns `neck_flexion`, not `critical_posture`: the
list order, not a global category priority, decides. -/
theorem posture_risk_claim_false_on_neck_then_critical :
    determine_posture_risk_type
        ["NECK FLEXION - High (Level 3+: 4 measurements)",
         "CRITICAL POSTURE - Zone 4 (7 measurements)"] = "neck_flexion" ∧
    determine_posture_risk_type
        ["NECK FLEXION - High (Level 3+: 4 measurements)",
         "CRITICAL POSTURE - Zone 4 (7 measurements)"] ≠ "critical_posture" := by
  decide

/-- C2 (amended): the risk tag is decided by the *first* alert in list
order that matches any category (the category checks inside a single
alert run critical → high/zone-3 → neck → shoulder); unmatched lists
fall back to `general_posture`.  With the critical label first the tag
is `critical_posture`; with the neck label first it is `neck_flexion`. -/
theorem determine_posture_risk_type_first_match :
    (∀ alerts : List String,
      determine_posture_risk_type alerts =
        (alerts.findSome? alertTag).getD "general_posture") ∧
    determine_posture_risk_type
        ["CRITICAL POSTURE - Zone 4 (7 measurements)",
         "NECK FLEXION - High (Level 3+: 4 measurements)"] = "critical_posture" ∧
    determine_posture_risk_type
        ["NECK FLEXION - High (Level 3+: 4 measurements)",
         "CRITICAL POSTURE - Zone 4 (7 measurements)"] = "neck_flexion" := by
  refine ⟨?_, by decide, by decide⟩
  intro alerts
  induction alerts with
  | nil => rfl
  | cons a rest ih =>
    cases h : alertTag a with
    | some t =>
      rw [determine_cons_of_tag a rest t h, List.findSome?_cons, h]
      rfl
    | none =>
      rw [determine_cons_of_none a rest h, List.findSome?_cons, h, ih]

/-- C4 (confirmed): firing the posture cooldown stores the current time
under the `(user, chat)` key; a later attempt at `t'` finds the cooldown
active iff `t' - t < 30`; at exactly 30 seconds elapsed it is no longer
active. -/
theorem posture_cooldown_fire_semantics (table : CooldownTable)
    (chat_id user_id : Int) (t t' : ℚ) :
    (update_posture_cooldown table chat_id user_id t) user_id chat_id =
      some t ∧
    (is_posture_cooldown_active (update_posture_cooldown table chat_id user_id t)
        chat_id user_id t' = true ↔ t' - t < POSTURE_COOLDOWN_SECONDS) ∧
    is_posture_cooldown_active (update_posture_cooldown table chat_id user_id t)
        chat_id user_id (t + POSTURE_COOLDOWN_SECONDS) = false := by
  refine ⟨by simp [update_posture_cooldown], ?_, ?_⟩
  · simp [is_posture_cooldown_active, update_posture_cooldown]
  · simp [is_posture_cooldown_active, update_posture_cooldown]

/-- Helper: the clamp used by `add_points` lands in `[0, 10]`. -/
lemma clamp_mem_unit (x : ℚ) :
    0 ≤ max 0 (min 10 x) ∧ max 0 (min 10 x) ≤ 10 :=
  ⟨le_max_left _ _, max_le (by norm_num) (min_le_left _ _)⟩

/-- C5 (confirmed): `add_points` keeps every stored score in `[0, 10]`;
an existing row moves to `clamp(old + delta, 0, 10)`; a missing row is
first created at exactly `10.0` (visible when the delta is zero) and the
delta then applied through the clamp; the `9.9` user accepting three
times (+0.2 each) reads `10.0, 10.0, 10.0`. -/
theorem add_points_clamped (g : Gamification) (u : Int) (d : ℚ)
    (hg : ∀ v p, g v = some p → 0 ≤ p ∧ p ≤ 10) :
    (∀ v p, (add_points g u d).table v = some p → 0 ≤ p ∧ p ≤ 10) ∧
    (∀ p, g u = some p →
      (add_points g u d).table u = some (max 0 (min 10 (p + d))) ∧
      (add_points g u d).returned = some (max 0 (min 10 (p + d)))) ∧
    (g u = none → (add_points g u 0).table u = some 10) ∧
    (g u = none →
      (add_points g u d).table u = some (max 0 (min 10 (10 + d))) ∧
      (add_points g u d).returned = some (max 0 (min 10 (10 + d)))) ∧
    (let g0 : Gamification := fun v => if v = 2 then some (99 / 10) else none
     let r1 := add_points g0 2 (2 / 10)
     let r2 := add_points r1.table 2 (2 / 10)
     let r3 := add_points r2.table 2 (2 / 10)
     r1.returned = some 10 ∧ r2.returned = some 10 ∧ r3.returned = some 10) := by
  refine ⟨?_, ?_, ?_, ?_, by norm_num [add_points]⟩
  · intro v p hp
    by_cases hv : v = u
    · subst hv
      cases hgu : g v with
      | some cur =>
        simp [add_points, hgu] at hp
        subst hp
        exact clamp_mem_unit _
      | none =>
        by_cases hd : d = 0
        · subst hd
          simp [add_points, hgu] at hp
          subst hp
          norm_num
        · simp [add_points, hgu, hd] at hp
          subst hp
          exact clamp_mem_unit _
    · cases hgu : g u with
      | some cur =>
        simp [add_points, hgu, hv] at hp
        exact hg v p hp
      | none =>
        by_cases hd : d = 0
        · subst hd
          simp [add_points, hgu, hv] at hp
          exact hg v p hp
        · simp [add_points, hgu, hv, hd] at hp
          exact hg v p hp
  · intro p hgu
    simp [add_points, hgu]
  · intro hgu
    simp [add_points, hgu]
  · intro hgu
    by_cases hd : d = 0
    · subst hd
      simp [add_points, hgu]
    · simp [add_points, hgu, hd]

/-- Witness for `add_points_clamped`: a user with no gamification row
receiving `+5` ends (and reports) exactly `10` points. -/
theorem add_points_clamped_witness :
    (add_points (fun _ : Int => (none : Option ℚ)) 1 5).returned =
      some (max 0 (min 10 (10 + 5))) :=
  ((add_points_clamped (fun _ : Int => none) 1 5
      (fun _ _ h => nomatch h)).2.2.2.1 rfl).2

/-- C10 (confirmed): recording a `postpone` response appends exactly one
row to `recommendation_responses` and leaves the gamification table
untouched — in particular no initial `10.0` entry is created for a user
without one, because the zero delta short-circuits before `add_points`. -/
theorem insert_response_postpone_frame (st : DBState) (rid : String)
    (u : Int) :
    (insert_recommendation_response st rid u "postpone").gamification =
      st.gamification ∧
    (insert_recommendation_response st rid u "postpone").responses =
      st.responses ++ [⟨rid, u, "postpone"⟩] :=
  ⟨rfl, rfl⟩

/-- C8 (confirmed): a training run handed fewer than 5 feedback rows (or
no frame at all) only clears `is_model_ready` and leaves the previously
stored model object untouched. -/
theorem train_brain_aborts_when_small {μ : Type} (s : BrainState μ)
    (df : Option (List FeedbackRow)) (newModel : μ) (ok : Bool)
    (h : df = none ∨ ∃ rows, df = some rows ∧ rows.length < 5) :
    (train_brain s df newModel ok).is_model_ready = false ∧
    (train_brain s df newModel ok).model = s.model := by
  rcases h with h | ⟨rows, hrows, hlen⟩
  · subst h
    exact ⟨rfl, rfl⟩
  · subst hrows
    simp [train_brain, hlen]

/-- Witness for `train_brain_aborts_when_small`: retraining an already
trained brain on an empty frame clears readiness and keeps the model. -/
theorem train_brain_aborts_when_small_witness :
    ((some [] : Option (List FeedbackRow)) = none ∨
      ∃ rows, (some [] : Option (List FeedbackRow)) = some rows ∧
        rows.length < 5) ∧
    (train_brain (⟨some 7, true⟩ : BrainState Nat) (some []) 0 true
        ).is_model_ready = false ∧
    (train_brain (⟨some 7, true⟩ : BrainState Nat) (some []) 0 true
        ).model = some 7 :=
  ⟨Or.inr ⟨[], rfl, by decide⟩,
    train_brain_aborts_when_small ⟨some 7, true⟩ (some []) 0 true
      (Or.inr ⟨[], rfl, by decide⟩)⟩

/-- Helper: a row mapping to a cell overwrites that cell. -/
lemma tensorStep_hit (userList acts : List String) (t : Tensor3)
    (row : FeedbackRow) (u c a : Nat)
    (h : rowMapsTo userList acts u c a row = true) :
    tensorStep userList acts t row u c a = row.reward := by
  unfold rowMapsTo at h
  simp only [Bool.and_eq_true, beq_iff_eq] at h
  obtain ⟨⟨h1, h2⟩, h3⟩ := h
  unfold tensorStep
  rw [h1, h2]
  simp [h3]

/-- Helper: a row not mapping to a cell leaves that cell unchanged. -/
lemma tensorStep_miss (userList acts : List String) (t : Tensor3)
    (row : FeedbackRow) (u c a : Nat)
    (h : rowMapsTo userList acts u c a row = false) :
    tensorStep userList acts t row u c a = t u c a := by
  unfold rowMapsTo at h
  unfold tensorStep
  cases h1 : indexInList row.user_id userList with
  | none => rfl
  | some ui =>
    cases h2 : indexInList row.name acts with
    | none => rfl
    | some ai =>
      rw [h1, h2] at h
      dsimp only
      rw [if_neg]
      rintro ⟨hu, hc, ha⟩
      rw [hu, hc, ha] at h
      simp at h

/-- Helper: the fill loop realises last-write-wins per cell. -/
lemma tensorFold_last_write (userList acts : List String) (u c a : Nat) :
    ∀ (df : List FeedbackRow) (t0 : Tensor3),
      tensorFold userList acts df t0 u c a =
        (df.filter (rowMapsTo userList acts u c a)).foldl
          (fun _ row => row.reward) (t0 u c a) := by
  intro df
  induction df with
  | nil => intro t0; rfl
  | cons r rest ih =>
    intro t0
    by_cases hr : rowMapsTo userList acts u c a r = true
    · rw [tensorFold, List.foldl_cons, List.filter_cons_of_pos hr,
        List.foldl_cons]
      have h := ih (tensorStep userList acts t0 r)
      rw [tensorFold] at h
      rw [h, tensorStep_hit userList acts t0 r u c a hr]
    · rw [Bool.not_eq_true] at hr
      rw [tensorFold, List.foldl_cons, List.filter_cons_of_neg (by simp [hr])]
      have h := ih (tensorStep userList acts t0 r)
      rw [tensorFold] at h
      rw [h, tensorStep_miss userList acts t0 r u c a hr]

/-- Helper: an overwrite fold ends at its initial value or at the reward
of one of the rows. -/
lemma foldl_overwrite (l : List FeedbackRow) (init : ℚ) :
    l.foldl (fun _ row => row.reward) init = init ∨
      ∃ row ∈ l, l.foldl (fun _ row => row.reward) init = row.reward := by
  induction l generalizing init with
  | nil => exact Or.inl rfl
  | cons r rest ih =>
    rcases ih r.reward with h | ⟨row, hrow, h⟩
    · exact Or.inr ⟨r, by simp, by simp [List.foldl_cons, h]⟩
    · exact Or.inr ⟨row, by simp [hrow], by simp [List.foldl_cons, h]⟩

/-- C9 (counterexample): the tensor built from a single morning feedback
row holds `0.0` — a value outside `{−1.0, 0.1, 1.0}` — in the untouched
afternoon cell of the same user and activity, because the tensor is
zero-initialised and only written where feedback exists. -/
theorem interaction_tensor_claim_false_on_singleton :
    build_tensor ["Brisk Walk"] [⟨"1", "morning", "Brisk Walk", 1⟩] 0 1 0
        = 0 ∧
    ¬(build_tensor ["Brisk Walk"] [⟨"1", "morning", "Brisk Walk", 1⟩] 0 1 0
          = -1 ∨
      build_tensor ["Brisk Walk"] [⟨"1", "morning", "Brisk Walk", 1⟩] 0 1 0
          = 1 / 10 ∨
      build_tensor ["Brisk Walk"] [⟨"1", "morning", "Brisk Walk", 1⟩] 0 1 0
          = 1) ∧
    (uniqueUsers [⟨"1", "morning", "Brisk Walk", 1⟩]).length = 1 := by
  have h : build_tensor ["Brisk Walk"] [⟨"1", "morning", "Brisk Walk", 1⟩]
      0 1 0 = 0 := by decide
  refine ⟨h, ?_, by decide⟩
  rw [h]
  norm_num

/-- C9 (amended): every tensor cell holds either the zero fill value (no
feedback row maps to the cell) or a reward from `{−1.0, 0.1, 1.0}` when
all frame rewards lie in that set; the cell value is the fold of the
rows mapping to it in frame order, so the last such row wins. -/
theorem build_tensor_cell_values (acts : List String)
    (df : List FeedbackRow) (u c a : Nat)
    (hdf : ∀ r ∈ df, r.reward = -1 ∨ r.reward = 1 / 10 ∨ r.reward = 1) :
    build_tensor acts df u c a =
      (df.filter (rowMapsTo (uniqueUsers df) acts u c a)).foldl
        (fun _ row => row.reward) 0 ∧
    (build_tensor acts df u c a = 0 ∨ build_tensor acts df u c a = -1 ∨
      build_tensor acts df u c a = 1 / 10 ∨
      build_tensor acts df u c a = 1) := by
  have h1 := tensorFold_last_write (uniqueUsers df) acts u c a df
    (fun _ _ _ => 0)
  refine ⟨h1, ?_⟩
  simp only [build_tensor]
  rw [h1]
  rcases foldl_overwrite (df.filter (rowMapsTo (uniqueUsers df) acts u c a))
      0 with h2 | ⟨row, hrow, h2⟩
  · exact Or.inl h2
  · rcases hdf row (List.mem_of_mem_filter hrow) with h | h | h
    · exact Or.inr (Or.inl (h ▸ h2))
    · exact Or.inr (Or.inr (Or.inl (h ▸ h2)))
    · exact Or.inr (Or.inr (Or.inr (h ▸ h2)))

/-- Witness for `build_tensor_cell_values`: on the single-row frame the
written morning cell evaluates to one of the legal values (here `1.0`). -/
theorem build_tensor_cell_values_witness :
    (∀ r ∈ ([⟨"1", "morning", "Brisk Walk", 1⟩] : List FeedbackRow),
      r.reward = -1 ∨ r.reward = 1 / 10 ∨ r.reward = 1) ∧
    (build_tensor ["Brisk Walk"] [⟨"1", "morning", "Brisk Walk", 1⟩] 0 0 0
        = 0 ∨
      build_tensor ["Brisk Walk"] [⟨"1", "morning", "Brisk Walk", 1⟩] 0 0 0
        = -1 ∨
      build_tensor ["Brisk Walk"] [⟨"1", "morning", "Brisk Walk", 1⟩] 0 0 0
        = 1 / 10 ∨
      build_tensor ["Brisk Walk"] [⟨"1", "morning", "Brisk Walk", 1⟩] 0 0 0
        = 1) :=
  ⟨by intro r hr; simp only [List.mem_singleton] at hr; subst hr; norm_num,
    (build_tensor_cell_values ["Brisk Walk"]
      [⟨"1", "morning", "Brisk Walk", 1⟩] 0 0 0
      (by intro r hr; simp only [List.mem_singleton] at hr; subst hr;
          norm_num)).2⟩

/-- Helper: `getD` at an in-range index is the indexed element. -/
lemma activity_getD_of_lt : ∀ (l : List Activity) (k : Nat) (d : Activity)
    (h : k < l.length), l.getD k d = l.get ⟨k, h⟩
  | _ :: _, 0, _, _ => rfl
  | _ :: l, k + 1, d, h => activity_getD_of_lt l k d (Nat.lt_of_succ_lt_succ h)
  | [], k, _, h => absurd h (Nat.not_lt_zero k)

/-- C6 (confirmed): when the model is not trained or the queried user is
not in the user index, the AI ranking is skipped and the recommendation
is built from the candidate at the uniformly drawn index `k` of the risk
tag candidate list, with the cold-start provenance label (the `COLD`
source of the spec, spelled `COLD-START` in the code) in its reason. -/
theorem generate_recommendation_cold_start (ready : Bool)
    (userMapKeys : List String) (aiScore : String → Option ℚ) (k : Nat)
    (user_id : Option Int) (risk_type : String)
    (hcold : ready = false ∨ user_str user_id ∉ userMapKeys)
    (hk : k < (candidatesFor risk_type).length) :
    generate_recommendation ready userMapKeys aiScore k user_id risk_type =
      { userStr := user_str user_id
        recommendation_type :=
          ((candidatesFor risk_type).get ⟨k, hk⟩).activityType
        name := ((candidatesFor risk_type).get ⟨k, hk⟩).name
        description := ((candidatesFor risk_type).get ⟨k, hk⟩).description
        duration := ((candidatesFor risk_type).get ⟨k, hk⟩).duration
        steps := ((candidatesFor risk_type).get ⟨k, hk⟩).steps
        reason := "Suggested by COLD-START (Risk: " ++ risk_type ++ ")"
        urgency :=
          if strContains risk_type "critical" then "high" else "medium" } := by
  have hcond : ¬(ready = true ∧ user_str user_id ∈ userMapKeys) := by
    rintro ⟨h1, h2⟩
    rcases hcold with h | h
    · simp [h] at h1
    · exact h h2
  unfold generate_recommendation
  dsimp only
  rw [if_neg hcond]
  dsimp only
  rw [random_choice, activity_getD_of_lt _ _ _ hk]
  rfl

/-- Witness for `generate_recommendation_cold_start`: the untrained model
asked for user 9 and `stress_high` with draw index 1 yields the second
breathing activity with the cold-start label. -/
theorem generate_recommendation_cold_start_witness :
    1 < (candidatesFor "stress_high").length ∧
    (generate_recommendation false [] (fun _ => none) 1 (some 9)
        "stress_high").reason =
      "Suggested by COLD-START (Risk: stress_high)" ∧
    (generate_recommendation false [] (fun _ => none) 1 (some 9)
        "stress_high").name = "Diaphragmatic Breathing" := by
  have h := generate_recommendation_cold_start false [] (fun _ => none) 1
    (some 9) "stress_high" (Or.inl rfl) (by decide)
  exact ⟨by decide, by rw [h]; rfl, by rw [h]; rfl⟩

/-- Helper: messages of the level-3+ loop carry this user, a keyboard,
and are not level-2 notes. -/
lemma sendLoopL3_msgs_shape (now : ℚ) (user : Int)
    (sendOk : Int → Int → Bool) :
    ∀ (recips : List Int) (tab : CooldownTable),
      ∀ m ∈ (sendLoopL3 now user sendOk recips tab).1,
        m.user = user ∧ m.hasKeyboard = true ∧ m.level2Info = false := by
  intro recips
  induction recips with
  | nil =>
    intro tab m hm
    simp [sendLoopL3] at hm
  | cons chat rest ih =>
    intro tab m hm
    rw [sendLoopL3] at hm
    split_ifs at hm with h1 h2
    · exact ih tab m hm
    · dsimp only at hm
      rcases List.mem_cons.mp hm with rfl | hm2
      · exact ⟨rfl, rfl, rfl⟩
      · exact ih _ m hm2
    · exact ih tab m hm

/-- Helper: messages of the level-2 loop carry this user, no keyboard,
and are level-2 notes. -/
lemma sendLoopL2_msgs_shape (now : ℚ) (user : Int)
    (sendOk : Int → Int → Bool) :
    ∀ (recips : List Int) (tab : CooldownTable),
      ∀ m ∈ (sendLoopL2 now user sendOk recips tab).1,
        m.user = user ∧ m.hasKeyboard = false ∧ m.level2Info = true := by
  intro recips
  induction recips with
  | nil =>
    intro tab m hm
    simp [sendLoopL2] at hm
  | cons chat rest ih =>
    intro tab m hm
    rw [sendLoopL2] at hm
    split_ifs at hm with h1 h2
    · exact ih tab m hm
    · dsimp only at hm
      rcases List.mem_cons.mp hm with rfl | hm2
      · exact ⟨rfl, rfl, rfl⟩
      · exact ih _ m hm2
    · exact ih tab m hm

/-- Helper: the chats of the level-3+ loop form a sublist of the
recipient list. -/
lemma sendLoopL3_chats_sublist (now : ℚ) (user : Int)
    (sendOk : Int → Int → Bool) :
    ∀ (recips : List Int) (tab : CooldownTable),
      ((sendLoopL3 now user sendOk recips tab).1.map PostureMsg.chat).Sublist
        recips := by
  intro recips
  induction recips with
  | nil =>
    intro tab
    simp [sendLoopL3]
  | cons chat rest ih =>
    intro tab
    rw [sendLoopL3]
    split_ifs with h1 h2
    · exact List.Sublist.cons chat (ih tab)
    · dsimp only
      rw [List.map_cons]
      exact List.Sublist.cons₂ chat (ih _)
    · exact List.Sublist.cons chat (ih tab)

/-- Helper: the chats of the level-2 loop form a sublist of the
recipient list. -/
lemma sendLoopL2_chats_sublist (now : ℚ) (user : Int)
    (sendOk : Int → Int → Bool) :
    ∀ (recips : List Int) (tab : CooldownTable),
      ((sendLoopL2 now user sendOk recips tab).1.map PostureMsg.chat).Sublist
        recips := by
  intro recips
  induction recips with
  | nil =>
    intro tab
    simp [sendLoopL2]
  | cons chat rest ih =>
    intro tab
    rw [sendLoopL2]
    split_ifs with h1 h2
    · exact List.Sublist.cons chat (ih tab)
    · dsimp only
      rw [List.map_cons]
      exact List.Sublist.cons₂ chat (ih _)
    · exact List.Sublist.cons chat (ih tab)

/-- Helper: a list whose images under `f` are distinct has at most one
element with any given image. -/
lemma length_filter_eq_le_one {α β : Type} [DecidableEq β] (f : α → β) :
    ∀ (l : List α), (l.map f).Nodup → ∀ b : β,
      (l.filter (fun x => f x == b)).length ≤ 1 := by
  intro l
  induction l with
  | nil =>
    intro _ b
    simp
  | cons a rest ih =>
    intro h b
    rw [List.map_cons, List.nodup_cons] at h
    obtain ⟨ha, hrest⟩ := h
    by_cases hb : (f a == b) = true
    · have hnil : rest.filter (fun x => f x == b) = [] := by
        rw [List.filter_eq_nil_iff]
        intro x hx hfx
        rw [beq_iff_eq] at hb hfx
        exact ha (hb ▸ hfx ▸ List.mem_map_of_mem f hx)
      simp only [List.filter_cons, hb, if_true, hnil]
      simp
    · have hb2 : (f a == b) = false := by simpa using hb
      simp only [List.filter_cons, hb2, if_false]
      exact ih hrest b

/-- Helper: conjoining a second test cannot lengthen a filter. -/
lemma length_filter_and_le {α : Type} (p q : α → Bool) :
    ∀ l : List α,
      (l.filter (fun x => p x && q x)).length ≤ (l.filter p).length := by
  intro l
  induction l with
  | nil => simp
  | cons a rest ih =>
    by_cases hp : p a = true
    · by_cases hq : q a = true
      · simp only [List.filter_cons, hp, hq, Bool.and_self, if_true]
        simpa using ih
      · simp only [List.filter_cons, hp, hq, Bool.and_false, if_true,
          if_false]
        exact Nat.le_succ_of_le ih
    · simp only [List.filter_cons, hp, Bool.false_and, if_false]
      exact ih

/-- Helper: a filter over elements that all fail the test is empty. -/
lemma filter_eq_nil_of_forall_false {α : Type} (p : α → Bool)
    (l : List α) (h : ∀ x ∈ l, p x = false) : l.filter p = [] := by
  rw [List.filter_eq_nil_iff]
  intro x hx
  rw [h x hx]
  exact Bool.false_ne_true

/-- Helper: a chat whose sends fail keeps its cooldown entry through the
level-3+ loop. -/
lemma sendLoopL3_fail_keeps_entry (now : ℚ) (user : Int)
    (sendOk : Int → Int → Bool) (c : Int) (hc : sendOk c user = false) :
    ∀ (recips : List Int) (tab : CooldownTable),
      (sendLoopL3 now user sendOk recips tab).2 user c = tab user c := by
  intro recips
  induction recips with
  | nil => intro tab; rfl
  | cons chat rest ih =>
    intro tab
    rw [sendLoopL3]
    split_ifs with h1 h2
    · exact ih tab
    · dsimp only
      rw [ih _]
      unfold update_posture_cooldown
      rw [if_neg]
      rintro ⟨-, rfl⟩
      rw [hc] at h2
      exact Bool.false_ne_true h2
    · exact ih tab

/-- Helper: an entry already holding the tick time survives the rest of
the level-3+ loop. -/
lemma sendLoopL3_keeps_now (now : ℚ) (user : Int)
    (sendOk : Int → Int → Bool) (c : Int) :
    ∀ (recips : List Int) (tab : CooldownTable), tab user c = some now →
      (sendLoopL3 now user sendOk recips tab).2 user c = some now := by
  intro recips
  induction recips with
  | nil => intro tab h; exact h
  | cons chat rest ih =>
    intro tab h
    rw [sendLoopL3]
    split_ifs with h1 h2
    · exact ih tab h
    · dsimp only
      apply ih
      unfold update_posture_cooldown
      by_cases hcc : c = chat
      · rw [if_pos ⟨rfl, hcc⟩]
      · rw [if_neg (by rintro ⟨-, h3⟩; exact hcc h3)]
        exact h
    · exact ih tab h

/-- Helper: a chat that received a message in the level-3+ loop holds the
tick time in its cooldown entry afterwards. -/
lemma sendLoopL3_sent_fired (now : ℚ) (user : Int)
    (sendOk : Int → Int → Bool) (c : Int) :
    ∀ (recips : List Int) (tab : CooldownTable),
      (∃ m ∈ (sendLoopL3 now user sendOk recips tab).1, m.chat = c) →
      (sendLoopL3 now user sendOk recips tab).2 user c = some now := by
  intro recips
  induction recips with
  | nil =>
    intro tab h
    obtain ⟨m, hm, -⟩ := h
    simp [sendLoopL3] at hm
  | cons chat rest ih =>
    intro tab h
    rw [sendLoopL3] at h ⊢
    split_ifs at h ⊢ with h1 h2
    · exact ih tab h
    · dsimp only at h ⊢
      obtain ⟨m, hm, hmc⟩ := h
      rcases List.mem_cons.mp hm with rfl | hm2
      · apply sendLoopL3_keeps_now
        unfold update_posture_cooldown
        rw [if_pos ⟨rfl, hmc.symm⟩]
      · exact ih _ ⟨m, hm2, hmc⟩
    · exact ih tab h

/-- C7 (counterexample): with one subscribed chat, an empty cooldown
table and a failing transport, the tick attempts the level-3+ send (the
cooldown is clear), the send fails, and afterwards the key holds no
last-fire time and is *not* in cooldown one second later — the code
fires the cooldown only after a successful send, so a failed send leaves
the key out of cooldown rather than keeping it in cooldown. -/
theorem send_failure_cooldown_claim_false :
    is_posture_cooldown_active (fun _ _ => none) 1 7 0 = false ∧
    (sendLoopL3 0 7 (fun _ _ => false) [1] (fun _ _ => none)).1 = [] ∧
    (sendLoopL3 0 7 (fun _ _ => false) [1] (fun _ _ => none)).2 7 1 =
      none ∧
    is_posture_cooldown_active
      (sendLoopL3 0 7 (fun _ _ => false) [1] (fun _ _ => none)).2 1 7 1 =
      false := by
  decide

/-- C7 (amended): the cooldown fires only on a successful send.  A chat
whose sends fail comes out of the loop with its cooldown entry exactly
as it went in (never rolled back, never advanced), while a chat that was
actually sent a message holds the tick time — and that entry is never
rolled back by later failures in the same tick. -/
theorem send_failure_cooldown_semantics (now : ℚ) (user : Int)
    (sendOk : Int → Int → Bool) (recips : List Int) (tab : CooldownTable)
    (c : Int) :
    (sendOk c user = false →
      (sendLoopL3 now user sendOk recips tab).2 user c = tab user c) ∧
    ((∃ m ∈ (sendLoopL3 now user sendOk recips tab).1, m.chat = c) →
      (sendLoopL3 now user sendOk recips tab).2 user c = some now) :=
  ⟨fun h => sendLoopL3_fail_keeps_entry now user sendOk c h recips tab,
   fun h => sendLoopL3_sent_fired now user sendOk c recips tab h⟩

/-- Witness for `send_failure_cooldown_semantics`: the transport delivers
only to chat 2; chat 1 keeps its empty entry, chat 2 is stamped with the
tick time. -/
theorem send_failure_cooldown_semantics_witness :
    (sendLoopL3 0 7 (fun chat _ => chat == 2) [1, 2]
        (fun _ _ => none)).2 7 1 = none ∧
    (sendLoopL3 0 7 (fun chat _ => chat == 2) [1, 2]
        (fun _ _ => none)).2 7 2 = some 0 := by
  refine ⟨?_, ?_⟩
  · exact (send_failure_cooldown_semantics 0 7 (fun chat _ => chat == 2)
      [1, 2] (fun _ _ => none) 1).1 (by decide)
  · exact (send_failure_cooldown_semantics 0 7 (fun chat _ => chat == 2)
      [1, 2] (fun _ _ => none) 2).2 (by decide)

/-- Helper: every message of one user iteration is addressed about that
user. -/
lemma processPostureUser_msgs_user (now : ℚ) (recips : List Int)
    (sendOk : Int → Int → Bool) (recOk : Bool) (user : Int)
    (pa ra : List String) (tabL3 tabL2 : CooldownTable) :
    ∀ m ∈ (processPostureUser now recips sendOk recOk user pa ra
        tabL3 tabL2).msgs, m.user = user := by
  intro m hm
  unfold processPostureUser at hm
  split_ifs at hm with h1 h2 h3 h4
  · dsimp only at hm
    exact (sendLoopL3_msgs_shape now user sendOk recips tabL3 m hm).1
  · simp at hm
  · dsimp only at hm
    exact (sendLoopL2_msgs_shape now user sendOk recips tabL2 m hm).1
  · simp at hm
  · simp at hm

/-- Helper: one user iteration sends at most one message per chat. -/
lemma processPostureUser_chat_count (now : ℚ) (recips : List Int)
    (sendOk : Int → Int → Bool) (recOk : Bool) (user : Int)
    (pa ra : List String) (tabL3 tabL2 : CooldownTable)
    (hrec : recips.Nodup) (c : Int) :
    ((processPostureUser now recips sendOk recOk user pa ra tabL3
        tabL2).msgs.filter (fun m => m.chat == c)).length ≤ 1 := by
  unfold processPostureUser
  split_ifs with h1 h2 h3 h4
  · dsimp only
    exact length_filter_eq_le_one PostureMsg.chat _
      ((sendLoopL3_chats_sublist now user sendOk recips tabL3).nodup hrec) c
  · simp
  · dsimp only
    exact length_filter_eq_le_one PostureMsg.chat _
      ((sendLoopL2_chats_sublist now user sendOk recips tabL2).nodup hrec) c
  · simp
  · simp

/-- Helper: a user with level-3+ alerts emits only recommendation
messages this tick (level 2 suppressed by the `elif`). -/
lemma processPostureUser_l3_only (now : ℚ) (recips : List Int)
    (sendOk : Int → Int → Bool) (recOk : Bool) (user : Int)
    (pa ra : List String) (tabL3 tabL2 : CooldownTable) (hra : ra ≠ []) :
    ∀ m ∈ (processPostureUser now recips sendOk recOk user pa ra
        tabL3 tabL2).msgs, m.level2Info = false ∧ m.hasKeyboard = true := by
  intro m hm
  unfold processPostureUser at hm
  rw [if_pos hra] at hm
  split_ifs at hm with h2
  · dsimp only at hm
    obtain ⟨-, hkb, hl2⟩ := sendLoopL3_msgs_shape now user sendOk recips
      tabL3 m hm
    exact ⟨hl2, hkb⟩
  · simp at hm

/-- Helper: a user without level-3+ alerts emits only button-less level-2
notes and generates no recommendation. -/
lemma processPostureUser_l2_only (now : ℚ) (recips : List Int)
    (sendOk : Int → Int → Bool) (recOk : Bool) (user : Int)
    (pa ra : List String) (tabL3 tabL2 : CooldownTable) (hra : ra = []) :
    (∀ m ∈ (processPostureUser now recips sendOk recOk user pa ra
        tabL3 tabL2).msgs, m.level2Info = true ∧ m.hasKeyboard = false) ∧
    (processPostureUser now recips sendOk recOk user pa ra tabL3
      tabL2).recGenerated = false := by
  unfold processPostureUser
  rw [if_neg (by simp [hra])]
  split_ifs with h3 h4
  · dsimp only
    refine ⟨?_, rfl⟩
    intro m hm
    obtain ⟨-, hkb, hl2⟩ := sendLoopL2_msgs_shape now user sendOk recips
      tabL2 m hm
    exact ⟨hl2, hkb⟩
  · exact ⟨by intro m hm; simp at hm, rfl⟩
  · exact ⟨by intro m hm; simp at hm, rfl⟩

/-- Helper: every message of a tick belongs to one of the listed users. -/
lemma tick_msgs_user_mem (now : ℚ) (recips : List Int)
    (sendOk : Int → Int → Bool) (recOk : Int → Bool) :
    ∀ (users : List (Int × List String × List String))
      (tabL3 tabL2 : CooldownTable),
      ∀ m ∈ (send_posture_alerts now recips sendOk recOk users tabL3
          tabL2).msgs,
        m.user ∈ users.map (fun e => e.1) := by
  intro users
  induction users with
  | nil =>
    intro t3 t2 m hm
    simp [send_posture_alerts] at hm
  | cons e rest ih =>
    intro t3 t2 m hm
    obtain ⟨u, pa, ra⟩ := e
    rw [send_posture_alerts] at hm
    dsimp only at hm
    rw [List.map_cons, List.mem_cons]
    rcases List.mem_append.mp hm with hm1 | hm2
    · exact Or.inl (processPostureUser_msgs_user now recips sendOk
        (recOk u) u pa ra t3 t2 m hm1)
    · exact Or.inr (ih _ _ m hm2)

/-- Helper: every user with a generated recommendation is one of the
listed users. -/
lemma tick_recUsers_mem (now : ℚ) (recips : List Int)
    (sendOk : Int → Int → Bool) (recOk : Int → Bool) :
    ∀ (users : List (Int × List String × List String))
      (tabL3 tabL2 : CooldownTable),
      ∀ u ∈ (send_posture_alerts now recips sendOk recOk users tabL3
          tabL2).recUsers,
        u ∈ users.map (fun e => e.1) := by
  intro users
  induction users with
  | nil =>
    intro t3 t2 u hu
    simp [send_posture_alerts] at hu
  | cons e rest ih =>
    intro t3 t2 u hu
    obtain ⟨u0, pa, ra⟩ := e
    rw [send_posture_alerts] at hu
    dsimp only at hu
    rw [List.map_cons, List.mem_cons]
    rcases List.mem_append.mp hu with hu1 | hu2
    · left
      by_cases hgen : (processPostureUser now recips sendOk (recOk u0) u0
          pa ra t3 t2).recGenerated = true
      · rw [if_pos hgen] at hu1
        simpa using hu1
      · rw [if_neg hgen] at hu1
        simp at hu1
    · exact Or.inr (ih _ _ u hu2)

/-- C3 (confirmed): within one posture dispatcher tick (distinct
subscriber chats, each triggered user listed once), (i) at most one
posture message goes to any (chat, user) pair; (ii) a user with level-3+
alerts gets only the recommendation message — every level-2
informational message is suppressed for that user this tick; (iii) a
user with only level-2 alerts receives only button-less informational
messages and no recommendation is generated (hence none inserted) for
that user. -/
theorem send_posture_alerts_tick_invariants (now : ℚ) (recips : List Int)
    (sendOk : Int → Int → Bool) (recOk : Int → Bool)
    (users : List (Int × List String × List String))
    (tabL3 tabL2 : CooldownTable)
    (hrec : recips.Nodup)
    (husers : (users.map (fun e => e.1)).Nodup) :
    (∀ c u : Int,
      ((send_posture_alerts now recips sendOk recOk users tabL3
          tabL2).msgs.filter
        (fun m => m.chat == c && m.user == u)).length ≤ 1) ∧
    (∀ u pa ra, (u, pa, ra) ∈ users → ra ≠ [] →
      ∀ m ∈ (send_posture_alerts now recips sendOk recOk users tabL3
          tabL2).msgs,
        m.user = u → m.level2Info = false) ∧
    (∀ u pa ra, (u, pa, ra) ∈ users → ra = [] →
      (∀ m ∈ (send_posture_alerts now recips sendOk recOk users tabL3
          tabL2).msgs,
        m.user = u → m.level2Info = true ∧ m.hasKeyboard = false) ∧
      u ∉ (send_posture_alerts now recips sendOk recOk users tabL3
          tabL2).recUsers) := by
  revert husers
  induction users generalizing tabL3 tabL2 with
  | nil =>
    intro husers
    refine ⟨?_, ?_, ?_⟩
    · intro c u
      simp [send_posture_alerts]
    · intro u pa ra hmem
      simp at hmem
    · intro u pa ra hmem
      simp at hmem
  | cons e rest ih =>
    intro husers
    obtain ⟨u0, pa0, ra0⟩ := e
    rw [List.map_cons, List.nodup_cons] at husers
    obtain ⟨hu0, hrest⟩ := husers
    replace hu0 : u0 ∉ rest.map (fun e => e.1) := hu0
    have IH := ih (processPostureUser now recips sendOk (recOk u0) u0 pa0
      ra0 tabL3 tabL2).tabL3 (processPostureUser now recips sendOk
      (recOk u0) u0 pa0 ra0 tabL3 tabL2).tabL2 hrest
    rw [send_posture_alerts]
    dsimp only
    refine ⟨?_, ?_, ?_⟩
    · intro c u
      rw [List.filter_append, List.length_append]
      by_cases hu : u = u0
      · rw [hu]
        have hstep :
            ((processPostureUser now recips sendOk (recOk u0) u0 pa0 ra0
                tabL3 tabL2).msgs.filter
              (fun m => m.chat == c && m.user == u0)).length ≤ 1 :=
          le_trans
            (length_filter_and_le (fun (m : PostureMsg) => m.chat == c)
              (fun (m : PostureMsg) => m.user == u0) _)
            (processPostureUser_chat_count now recips sendOk
              (recOk u0) u0 pa0 ra0 tabL3 tabL2 hrec c)
        have hrr :
            ((send_posture_alerts now recips sendOk recOk rest
                (processPostureUser now recips sendOk (recOk u0) u0 pa0
                  ra0 tabL3 tabL2).tabL3
                (processPostureUser now recips sendOk (recOk u0) u0 pa0
                  ra0 tabL3 tabL2).tabL2).msgs.filter
              (fun m => m.chat == c && m.user == u0)) = [] := by
          apply filter_eq_nil_of_forall_false
          intro m hm
          have hmem := tick_msgs_user_mem now recips sendOk recOk rest _ _
            m hm
          have hne : (m.user == u0) = false := by
            simp only [beq_eq_false_iff_ne, ne_eq]
            intro h
            exact hu0 (h ▸ hmem)
          rw [hne, Bool.and_false]
        rw [hrr]
        simpa using hstep
      · have hstep :
            ((processPostureUser now recips sendOk (recOk u0) u0 pa0 ra0
                tabL3 tabL2).msgs.filter
              (fun m => m.chat == c && m.user == u)) = [] := by
          apply filter_eq_nil_of_forall_false
          intro m hm
          have h1 := processPostureUser_msgs_user now recips sendOk
            (recOk u0) u0 pa0 ra0 tabL3 tabL2 m hm
          have hne : (m.user == u) = false := by
            simp only [beq_eq_false_iff_ne, ne_eq]
            rw [h1]
            intro h
            exact hu h.symm
          rw [hne, Bool.and_false]
        rw [hstep]
        simpa using IH.1 c u
    · intro u pa ra hmem hra m hm hmu
      rcases List.mem_cons.mp hmem with heq | hmem2
      · simp only [Prod.mk.injEq] at heq
        obtain ⟨rfl, rfl, rfl⟩ := heq
        rcases List.mem_append.mp hm with hm1 | hm2
        · exact (processPostureUser_l3_only now recips sendOk (recOk u)
            u pa ra tabL3 tabL2 hra m hm1).1
        · have hmem3 := tick_msgs_user_mem now recips sendOk recOk rest
            _ _ m hm2
          rw [hmu] at hmem3
          exact absurd hmem3 hu0
      · rcases List.mem_append.mp hm with hm1 | hm2
        · have h1 := processPostureUser_msgs_user now recips sendOk
            (recOk u0) u0 pa0 ra0 tabL3 tabL2 m hm1
          rw [h1] at hmu
          exact absurd (hmu ▸ List.mem_map_of_mem (fun e => e.1) hmem2)
            hu0
        · exact IH.2.1 u pa ra hmem2 hra m hm2 hmu
    · intro u pa ra hmem hra
      rcases List.mem_cons.mp hmem with heq | hmem2
      · simp only [Prod.mk.injEq] at heq
        obtain ⟨rfl, rfl, rfl⟩ := heq
        have hl2 := processPostureUser_l2_only now recips sendOk (recOk u)
          u pa ra tabL3 tabL2 hra
        constructor
        · intro m hm hmu
          rcases List.mem_append.mp hm with hm1 | hm2
          · exact hl2.1 m hm1
          · have hmem3 := tick_msgs_user_mem now recips sendOk recOk rest
              _ _ m hm2
            rw [hmu] at hmem3
            exact absurd hmem3 hu0
        · intro hu
          rcases List.mem_append.mp hu with hu1 | hu2
          · rw [hl2.2] at hu1
            simp at hu1
          · exact hu0 (tick_recUsers_mem now recips sendOk recOk rest _ _
              u hu2)
      · have hune : u ≠ u0 := by
          intro h
          exact hu0 (h ▸ List.mem_map_of_mem (fun e => e.1) hmem2)
        have hres := IH.2.2 u pa ra hmem2 hra
        constructor
        · intro m hm hmu
          rcases List.mem_append.mp hm with hm1 | hm2
          · have h1 := processPostureUser_msgs_user now recips sendOk
              (recOk u0) u0 pa0 ra0 tabL3 tabL2 m hm1
            rw [h1] at hmu
            exact absurd hmu.symm hune
          · exact hres.1 m hm2 hmu
        · intro hu
          rcases List.mem_append.mp hu with hu1 | hu2
          · by_cases hgen : (processPostureUser now recips sendOk
                (recOk u0) u0 pa0 ra0 tabL3 tabL2).recGenerated = true
            · rw [if_pos hgen] at hu1
              simp at hu1
              exact hune hu1
            · rw [if_neg hgen] at hu1
              simp at hu1
          · exact hres.2 hu2

/-- Witness for `send_posture_alerts_tick_invariants`: one subscriber,
one user with a single level-2 alert; the tick sends at most one message
to the pair and generates no recommendation for the user. -/
theorem send_posture_alerts_tick_invariants_witness :
    ((send_posture_alerts 0 [1] (fun _ _ => true) (fun _ => true)
        [(7, ["NECK FLEXION - Medium (Level 2: 4 measurements)"], [])]
        (fun _ _ => none) (fun _ _ => none)).msgs.filter
      (fun m => m.chat == 1 && m.user == 7)).length ≤ 1 ∧
    (7 : Int) ∉ (send_posture_alerts 0 [1] (fun _ _ => true)
        (fun _ => true)
        [(7, ["NECK FLEXION - Medium (Level 2: 4 measurements)"], [])]
        (fun _ _ => none) (fun _ _ => none)).recUsers := by
  have h := send_posture_alerts_tick_invariants 0 [1] (fun _ _ => true)
    (fun _ => true)
    [(7, ["NECK FLEXION - Medium (Level 2: 4 measurements)"], [])]
    (fun _ _ => none) (fun _ _ => none) (by decide) (by decide)
  exact ⟨h.1 1 7,
    (h.2.2 7 ["NECK FLEXION - Medium (Level 2: 4 measurements)"] []
      (List.mem_singleton.mpr rfl) rfl).2⟩

end PAWSture
